import Mathlib

/-
  Verification development for the change-monitor CLI (src/src/main.rs).

  The program is a thin wrapper over external facilities: the filesystem
  (std::fs / std::path), the `git` command-line tool, and the `toml` crate.
  Those externals are modelled as an oracle structure `Env`; every piece of
  logic that lives in src/src/main.rs itself is embedded as a Lean function,
  following the source line by line.  Rust panics (unwrap / expect / panic!)
  are modelled as the `Outcome.panicked` constructor; a panicking Rust
  process terminates with exit code 101 and prints the panic message to
  standard error, which `Outcome.processExitCode` and `Outcome.stderrOf`
  reflect.  Log-macro output (debug!/info!/warn!/error!) goes to standard
  error (see the comment at main.rs line 193); the dynamic Debug-formatting
  of interpolated values is abstracted to plain string concatenation, which
  affects no observable property stated below.
-/

namespace ChangeMonitor

/-- TOML values as produced by the external `toml` crate (only the shapes the
program inspects are distinguished; everything else is `other`). -/
inductive TomlValue where
  | str (s : String)
  | arr (elems : List TomlValue)
  | table (entries : List (String × TomlValue))
  | other

/-- Lookup in a TOML table, first binding wins (toml::map::Map::get). -/
def tableGet : List (String × TomlValue) → String → Option TomlValue
  | [], _ => none
  | (k, v) :: entries, key => if k = key then some v else tableGet entries key

/-- toml::Value::get with a string index: succeeds only on tables. -/
def TomlValue.get : TomlValue → String → Option TomlValue
  | .table entries, key => tableGet entries key
  | _, _ => none

/-- toml::Value::as_array. -/
def TomlValue.as_array : TomlValue → Option (List TomlValue)
  | .arr elems => some elems
  | _ => none

/-- toml::Value::as_str. -/
def TomlValue.as_str : TomlValue → Option String
  | .str s => some s
  | _ => none

/-- The iteration at main.rs lines 151-157: map each value through
as_str().expect(...) and collect; `none` here means that the expect fired,
i.e. some dependency value was not a string. -/
def collectStrings : List TomlValue → Option (List String)
  | [] => some []
  | v :: vs =>
    match v.as_str with
    | none => none
    | some s => (collectStrings vs).map (fun ss => s :: ss)

/-- Oracle for everything outside src/src/main.rs: filesystem and path
queries (std), the three git subprocess invocations, the toml parser, and
the compile-time package version.  `none` on a subprocess field means the
process could not be spawned (the `Err` of Command::output). -/
structure Env where
  /-- PathBuf::canonicalize (main.rs line 94): absolute path or an error. -/
  canonicalize : String → Option String
  /-- Path::is_dir (line 104). -/
  isDir : String → Bool
  /-- Path::try_exists (line 99): `none` is the Err case (which panics);
  the Ok boolean is discarded by the source. -/
  tryExists : String → Option Bool
  /-- Path::parent (line 108). -/
  parent : String → Option String
  /-- Path::file_name composed with to_str (lines 122-126). -/
  fileName : String → Option String
  /-- Success flag of `git rev-parse --is-inside-work-tree` run in the given
  directory (lines 29-34). -/
  gitRevParse : String → Option Bool
  /-- Result of `git log -1 <format> -- <files>` run in the given directory:
  success flag and captured stdout (lines 50-58). -/
  gitLog : String → List String → String → Option (Bool × String)
  /-- Stdout of `git status --porcelain=v2 <files>` run in the given
  directory (lines 14-19). -/
  gitStatus : List String → String → Option String
  /-- Path::exists (line 137). -/
  pathExists : String → Bool
  /-- fs::read_to_string (line 140). -/
  readToString : String → Option String
  /-- String::parse::<toml::Table> via the toml crate (lines 141-143). -/
  parseToml : String → Option (List (String × TomlValue))
  /-- env!("CARGO_PKG_VERSION") (line 10); Cargo.toml is not part of src/. -/
  cargoPkgVersion : String

/-- Observable result of one process run: normal termination with an exit
code, or a Rust panic.  Both record the lines written to stdout and stderr
before (or at) termination. -/
inductive Outcome where
  | exit (code : Nat) (stdout : List String) (stderr : List String)
  | panicked (msg : String) (stdout : List String) (stderr : List String)
deriving DecidableEq

/-- The exit code of the operating-system process: a Rust panic terminates
the process with code 101. -/
def Outcome.processExitCode : Outcome → Nat
  | .exit code _ _ => code
  | .panicked _ _ _ => 101

/-- Lines written to standard output. -/
def Outcome.stdoutOf : Outcome → List String
  | .exit _ out _ => out
  | .panicked _ out _ => out

/-- Lines written to standard error; a panic message is printed there by the
Rust runtime. -/
def Outcome.stderrOf : Outcome → List String
  | .exit _ _ err => err
  | .panicked msg _ err => err ++ [msg]

/-- main.rs line 8. -/
def DEPENDENCIES_PATH : String := ".deps.toml"

/-- The format argument chosen at main.rs lines 45-49: %cs is the committer
date in short format, %H the full commit hash. -/
def log_format (get_date : Bool) : String :=
  if get_date then "--pretty=format:%cs" else "--pretty=format:%H"

/-- main.rs lines 13-24: `git status --porcelain=v2` over the files; the
working tree is clean iff the command printed nothing.  The `Except.error`
case is the unwrap panic when the command cannot be spawned. -/
def is_working_tree_clean (env : Env) (files : List String) (cwd : String) :
    Except String Bool :=
  match env.gitStatus files cwd with
  | none => .error "called unwrap on git status output"
  | some stdout => .ok stdout.isEmpty

/-- main.rs lines 28-41: `git rev-parse --is-inside-work-tree`.  The outer
error is the expect panic on spawn failure (line 34); the inner Except is the
Result the function returns. -/
def check_git_repository (env : Env) (cwd : String) :
    Except String (Except String Unit) :=
  match env.gitRevParse cwd with
  | none => .error "Failed to execute git command"
  | some ok =>
    .ok (if ok then .ok ()
         else .error "Not a git repository (or any of the parent directories): .git")

/-- main.rs lines 44-67: `git log -1 <format> -- <files>`; on success the
stdout is returned with the empty string mapped to `none`; on command
failure the function returns `none` as well.  The `Except.error` case is the
expect panic on spawn failure (line 58). -/
def get_latest_commit (env : Env) (files : List String) (get_date : Bool)
    (cwd : String) : Except String (Option String) :=
  match env.gitLog (log_format get_date) files cwd with
  | none => .error "Failed to execute git command"
  | some (success, stdout) =>
    if success then .ok (Option.filter (fun s => !s.isEmpty) (some stdout))
    else .ok none

/-- main.rs lines 137-162: read and parse .deps.toml when it exists, then
extract table[filename]["dependencies"] as a list of strings.  Errors are
the three panics (unreadable file, unparseable file, non-string dependency);
`ok none` means no dependency entry applies. -/
def parse_dependencies (env : Env) (dependencies_path : String)
    (filename : String) : Except String (Option (List String)) :=
  if env.pathExists dependencies_path then
    match env.readToString dependencies_path with
    | none => .error "Failed to read .deps.toml"
    | some toml_file_string =>
      match env.parseToml toml_file_string with
      | none => .error "Failed to parse .deps.toml"
      | some toml_file_table =>
        match ((tableGet toml_file_table filename).bind
            (fun key => key.get "dependencies")).bind TomlValue.as_array with
        | none => .ok none
        | some deps =>
          match collectStrings deps with
          | none => .error "dependency was not a string"
          | some ds => .ok (some ds)
  else .ok none

/-- main.rs line 131: args.get(2).map_or(false, |arg| arg == "--date"),
with `rest` the arguments after the filename. -/
def get_date_of (rest : List String) : Bool :=
  ((rest.head?).map (fun a => a == "--date")).getD false

/-- main.rs lines 190-205: query the latest commit for the monitored files,
then print it (with the DIRTY marker when not in date mode and the tree is
dirty), or report that no commits were found and exit 1. -/
def run_with_files (env : Env) (get_date : Bool) (all_files : List String)
    (cwd : String) (stderrAcc : List String) : Outcome :=
  match get_latest_commit env all_files get_date cwd with
  | .error msg => .panicked msg [] stderrAcc
  | .ok none => .exit 1 [] (stderrAcc ++ ["No commits found."])
  | .ok (some commit_hash) =>
    let stderr1 := stderrAcc ++ ["Latest commit affecting files: " ++ commit_hash]
    if get_date then .exit 0 [commit_hash] stderr1
    else
      match is_working_tree_clean env all_files cwd with
      | .error msg => .panicked msg [] stderr1
      | .ok clean =>
        .exit 0 [if clean then commit_hash else commit_hash ++ " DIRTY"] stderr1

/-- main.rs lines 134-205 (after get_date was computed at line 131): locate
and parse the dependency file, build the list of monitored files -- the
filename plus its declared dependencies when an entry exists, otherwise the
base directory alone -- and run the git queries. -/
def main_deps_phase (env : Env) (get_date : Bool)
    (base_directory filename : String) (stderrAcc : List String) : Outcome :=
  let dependencies_path := base_directory ++ "/" ++ DEPENDENCIES_PATH
  match parse_dependencies env dependencies_path filename with
  | .error msg => .panicked msg [] stderrAcc
  | .ok dependencies =>
    let stderr2 := stderrAcc ++ ["Searching: " ++ dependencies_path]
    match dependencies with
    | some deps =>
      run_with_files env get_date (filename :: deps) base_directory
        (stderr2 ++ ["Files monitored for changes"])
    | none =>
      run_with_files env get_date [base_directory] base_directory
        (stderr2 ++
          ["No dependencies entry found for file " ++ filename ++
             ". Monitoring basedirectory.",
           "Files monitored for changes"])

/-- main.rs lines 102-110: the base directory is the monitored path itself
when it is a directory, else its parent; a missing parent is the expect
panic at line 109. -/
def base_directory_of (env : Env) (filepath : String) : Except String String :=
  if env.isDir filepath then .ok filepath
  else
    match env.parent filepath with
    | none => .error "Cannot obtain directory for filename"
    | some p => .ok p

/-- main.rs lines 112-205 given the canonical filepath and base directory:
git-repository check, filename extraction, then the dependency phase. -/
def run_main_with_base (env : Env) (rest : List String)
    (filepath base_directory : String) : Outcome :=
  let stderr0 := ["Using base_directory: " ++ base_directory]
  match check_git_repository env base_directory with
  | .error msg => .panicked msg [] stderr0
  | .ok (.error e) =>
    .panicked ("Checking git repository failed: " ++ e) [] stderr0
  | .ok (.ok _) =>
    match env.fileName filepath with
    | none => .panicked "Could not obtain filename from filepath." [] stderr0
    | some filename =>
      main_deps_phase env (get_date_of rest) base_directory filename
        (stderr0 ++ ["Monitor changes for file: " ++ filepath])

/-- main.rs lines 102-205 given the canonical filepath. -/
def run_main_with_path (env : Env) (rest : List String) (filepath : String) :
    Outcome :=
  match base_directory_of env filepath with
  | .error msg => .panicked msg [] []
  | .ok base_directory => run_main_with_base env rest filepath base_directory

/-- main.rs lines 87-205: version flag, canonicalization (whose failure is
the panic at line 95), the try_exists check (whose Ok value is discarded by
the source, line 98-100), then the path phase. -/
def run_main_checked (env : Env) (arg1 : String) (rest : List String) :
    Outcome :=
  if arg1 = "-v" || arg1 = "--version" then
    .exit 0 [] ["Version: " ++ env.cargoPkgVersion]
  else
    match env.canonicalize arg1 with
    | none => .panicked ("Invalid file: " ++ arg1) [] []
    | some filepath =>
      match env.tryExists filepath with
      | none => .panicked (filepath ++ " does not exist") [] []
      | some _ => run_main_with_path env rest filepath

/-- main.rs fn main (lines 75-206).  With fewer than 2 or more than 3
arguments the usage line (which interpolates args[0]) goes to stderr and the
process exits 1; an empty argv would make the args[0] index itself panic. -/
def run_main (env : Env) (args : List String) : Outcome :=
  match args with
  | [] => .panicked "index out of bounds: the len is 0 but the index is 0" [] []
  | arg0 :: [] => .exit 1 [] ["Usage: " ++ arg0 ++ " <filename> [--date]"]
  | arg0 :: arg1 :: rest =>
    if rest.length > 1 then
      .exit 1 [] ["Usage: " ++ arg0 ++ " <filename> [--date]"]
    else run_main_checked env arg1 rest

/-! Concrete environments used by witnesses and counterexamples: a
repository at /repo containing f.txt, git available, one commit abc123
dated 2024-05-01, clean working tree, no dependency file. -/

/-- Baseline concrete environment. -/
def envBase : Env where
  canonicalize := fun s => some ("/repo/" ++ s)
  isDir := fun s => s == "/repo"
  tryExists := fun _ => some true
  parent := fun _ => some "/repo"
  fileName := fun _ => some "f.txt"
  gitRevParse := fun _ => some true
  gitLog := fun format _ _ =>
    some (true, if format = "--pretty=format:%cs" then "2024-05-01" else "abc123")
  gitStatus := fun _ _ => some ""
  pathExists := fun _ => false
  readToString := fun _ => none
  parseToml := fun _ => none
  cargoPkgVersion := "1.0.0"

/-- Like envBase but the dependency file exists and cannot be read. -/
def envUnreadable : Env :=
  { envBase with pathExists := fun _ => true, readToString := fun _ => none }

/-- Like envBase but the dependency file exists and does not parse. -/
def envMalformed : Env :=
  { envBase with pathExists := fun _ => true,
                 readToString := fun _ => some "not toml",
                 parseToml := fun _ => none }

/-- Like envBase but the working tree is dirty: git status prints a line. -/
def envDirty : Env :=
  { envBase with gitStatus := fun _ _ => some "1 .M f.txt" }

/-- Like envBase but with a dependency file declaring that f.txt depends on
a.cfg and b.cfg. -/
def envDeps : Env :=
  { envBase with
      pathExists := fun _ => true,
      readToString := fun _ => some "f.txt dependencies",
      parseToml := fun _ =>
        some [("f.txt", TomlValue.table
          [("dependencies", TomlValue.arr [TomlValue.str "a.cfg", TomlValue.str "b.cfg"])])] }

/-- Like envBase but git log finds no commits (success with empty output). -/
def envNoCommits : Env :=
  { envBase with gitLog := fun _ _ _ => some (true, "") }

/-- Like envBase but git log itself fails. -/
def envLogFails : Env :=
  { envBase with gitLog := fun _ _ _ => some (false, "fatal") }

/-- Like envBase but the base directory is not inside a git repository. -/
def envNoRepo : Env :=
  { envBase with gitRevParse := fun _ => some false }

/-- Like envBase but the monitored argument canonicalizes to the directory
/repo itself. -/
def envDirArg : Env :=
  { envBase with canonicalize := fun _ => some "/repo",
                 fileName := fun _ => some "repo" }

/-- Hypothesis bundle: the run gets past the argument, canonicalization,
existence, base-directory, git-repository and filename steps of main
(main.rs lines 87-128), reaching the dependency phase. -/
def ReachesDeps (env : Env) (a1 filepath base filename : String) (b : Bool) :
    Prop :=
  a1 ≠ "-v" ∧ a1 ≠ "--version" ∧
  env.canonicalize a1 = some filepath ∧
  env.tryExists filepath = some b ∧
  base_directory_of env filepath = .ok base ∧
  env.gitRevParse base = some true ∧
  env.fileName filepath = some filename

/-- Under a ReachesDeps bundle, run_main reduces to the dependency phase of
main with the base directory and filename it computed. -/
theorem run_main_reaches_deps (env : Env) (a0 a1 : String) (rest : List String)
    (filepath base filename : String) (b : Bool)
    (hre : ReachesDeps env a1 filepath base filename b)
    (hr : rest.length ≤ 1) :
    run_main env (a0 :: a1 :: rest) =
      main_deps_phase env (get_date_of rest) base filename
        ["Using base_directory: " ++ base,
         "Monitor changes for file: " ++ filepath] := by
  obtain ⟨h1, h2, hc, he, hb, hg, hf⟩ := hre
  have hrr : ¬ (rest.length > 1) := by omega
  unfold run_main run_main_checked run_main_with_path run_main_with_base
  unfold check_git_repository
  simp [hrr, h1, h2, hc, he, hb, hg, hf]

/-- get_latest_commit returns the git output when the command succeeds with
non-empty stdout. -/
theorem get_latest_commit_some (env : Env) (files : List String) (gd : Bool)
    (cwd h : String)
    (hlog : env.gitLog (log_format gd) files cwd = some (true, h))
    (hne : h.isEmpty = false) :
    get_latest_commit env files gd cwd = .ok (some h) := by
  unfold get_latest_commit
  rw [hlog]
  simp [Option.filter, hne]

/-- get_latest_commit returns none when the command fails. -/
theorem get_latest_commit_none_of_fail (env : Env) (files : List String)
    (gd : Bool) (cwd out : String)
    (hlog : env.gitLog (log_format gd) files cwd = some (false, out)) :
    get_latest_commit env files gd cwd = .ok none := by
  unfold get_latest_commit
  rw [hlog]
  simp

/-- get_latest_commit returns none when the command succeeds with empty
stdout. -/
theorem get_latest_commit_none_of_empty (env : Env) (files : List String)
    (gd : Bool) (cwd : String)
    (hlog : env.gitLog (log_format gd) files cwd = some (true, "")) :
    get_latest_commit env files gd cwd = .ok none := by
  unfold get_latest_commit
  rw [hlog]
  simp [Option.filter]
  rfl

/-- run_with_files on a found commit in hash mode prints the hash, plus the
DIRTY marker exactly when git status printed something. -/
theorem run_with_files_hash (env : Env) (files : List String) (cwd : String)
    (serr : List String) (h out : String)
    (hlog : env.gitLog (log_format false) files cwd = some (true, h))
    (hne : h.isEmpty = false)
    (hst : env.gitStatus files cwd = some out) :
    run_with_files env false files cwd serr =
      .exit 0 [if out.isEmpty then h else h ++ " DIRTY"]
        (serr ++ ["Latest commit affecting files: " ++ h]) := by
  unfold run_with_files is_working_tree_clean
  rw [get_latest_commit_some env files false cwd h hlog hne, hst]
  rfl

/-- run_with_files on a found commit in date mode prints the raw git output
and never consults git status. -/
theorem run_with_files_date (env : Env) (files : List String) (cwd : String)
    (serr : List String) (d : String)
    (hlog : env.gitLog (log_format true) files cwd = some (true, d))
    (hne : d.isEmpty = false) :
    run_with_files env true files cwd serr =
      .exit 0 [d] (serr ++ ["Latest commit affecting files: " ++ d]) := by
  unfold run_with_files
  rw [get_latest_commit_some env files true cwd d hlog hne]
  rfl

/-- run_with_files reports No commits found and exits 1 when the log query
yields none. -/
theorem run_with_files_none (env : Env) (gd : Bool) (files : List String)
    (cwd : String) (serr : List String)
    (hnone : get_latest_commit env files gd cwd = .ok none) :
    run_with_files env gd files cwd serr =
      .exit 1 [] (serr ++ ["No commits found."]) := by
  unfold run_with_files
  rw [hnone]

/-- The dependency phase with a parsed entry queries the filename plus its
declared dependencies. -/
theorem main_deps_phase_some (env : Env) (gd : Bool) (base filename : String)
    (serr : List String) (deps : List String)
    (hdep : parse_dependencies env (base ++ "/" ++ DEPENDENCIES_PATH) filename
      = .ok (some deps)) :
    main_deps_phase env gd base filename serr =
      run_with_files env gd (filename :: deps) base
        (serr ++ ["Searching: " ++ (base ++ "/" ++ DEPENDENCIES_PATH),
                  "Files monitored for changes"]) := by
  simp only [main_deps_phase, hdep]
  rw [List.append_assoc]
  rfl

/-- The dependency phase without an entry queries the base directory. -/
theorem main_deps_phase_none (env : Env) (gd : Bool) (base filename : String)
    (serr : List String)
    (hdep : parse_dependencies env (base ++ "/" ++ DEPENDENCIES_PATH) filename
      = .ok none) :
    main_deps_phase env gd base filename serr =
      run_with_files env gd [base] base
        (serr ++ ["Searching: " ++ (base ++ "/" ++ DEPENDENCIES_PATH),
                  "No dependencies entry found for file " ++ filename ++
                    ". Monitoring basedirectory.",
                  "Files monitored for changes"]) := by
  simp only [main_deps_phase, hdep]
  rw [List.append_assoc]
  rfl

/-- The dependency phase panics when parsing the dependency file panics. -/
theorem main_deps_phase_panic (env : Env) (gd : Bool) (base filename : String)
    (serr : List String) (msg : String)
    (hdep : parse_dependencies env (base ++ "/" ++ DEPENDENCIES_PATH) filename
      = .error msg) :
    main_deps_phase env gd base filename serr = .panicked msg [] serr := by
  simp only [main_deps_phase, hdep]

/-- run_main_checked depends on the trailing arguments only through the
date flag. -/
theorem run_main_checked_congr (env : Env) (a1 : String)
    (rest rest' : List String) (hgd : get_date_of rest = get_date_of rest') :
    run_main_checked env a1 rest = run_main_checked env a1 rest' := by
  unfold run_main_checked run_main_with_path run_main_with_base
  simp only [hgd]

/-- C1 counterexample: the claim asserts exit code exactly 1 for an
unreadable dependency file, but the program panics there (expect at main.rs
line 140), and a Rust panic terminates the process with exit code 101. -/
theorem C1_counterexample :
    run_main envUnreadable ["prog", "f.txt"] =
      .panicked "Failed to read .deps.toml" []
        ["Using base_directory: /repo", "Monitor changes for file: /repo/f.txt"] ∧
    (run_main envUnreadable ["prog", "f.txt"]).processExitCode = 101 ∧
    ¬ (run_main envUnreadable ["prog", "f.txt"]).processExitCode = 1 :=
  ⟨rfl, rfl, by decide⟩

/-- C1 (amended): missing arguments and no matching commit terminate the
process with exit code exactly 1; an unreadable dependency file instead
aborts the run with a panic, whose process exit code is 101 (non-zero, but
not 1). -/
theorem C1_amended (env : Env) (a0 a1 : String) (rest : List String)
    (filepath base filename : String) (b : Bool)
    (dependencies : Option (List String))
    (hre : ReachesDeps env a1 filepath base filename b)
    (hr : rest.length ≤ 1) :
    (run_main env [a0]).processExitCode = 1 ∧
    (parse_dependencies env (base ++ "/" ++ DEPENDENCIES_PATH) filename
        = .ok dependencies →
     get_latest_commit env
        (match dependencies with
         | some deps => filename :: deps
         | none => [base]) (get_date_of rest) base = .ok none →
     (run_main env (a0 :: a1 :: rest)).processExitCode = 1) ∧
    (env.pathExists (base ++ "/" ++ DEPENDENCIES_PATH) = true →
     env.readToString (base ++ "/" ++ DEPENDENCIES_PATH) = none →
     run_main env (a0 :: a1 :: rest) =
       .panicked "Failed to read .deps.toml" []
         ["Using base_directory: " ++ base,
          "Monitor changes for file: " ++ filepath] ∧
     (run_main env (a0 :: a1 :: rest)).processExitCode = 101) := by
  refine ⟨rfl, ?_, ?_⟩
  · intro hdep hnone
    rw [run_main_reaches_deps env a0 a1 rest filepath base filename b hre hr]
    cases dependencies with
    | some deps =>
      rw [main_deps_phase_some env (get_date_of rest) base filename _ deps hdep,
          run_with_files_none env (get_date_of rest) (filename :: deps) base _ hnone]
      rfl
    | none =>
      rw [main_deps_phase_none env (get_date_of rest) base filename _ hdep,
          run_with_files_none env (get_date_of rest) [base] base _ hnone]
      rfl
  · intro hex hread
    have hdep : parse_dependencies env (base ++ "/" ++ DEPENDENCIES_PATH) filename
        = .error "Failed to read .deps.toml" := by
      unfold parse_dependencies
      simp [hex, hread]
    rw [run_main_reaches_deps env a0 a1 rest filepath base filename b hre hr,
        main_deps_phase_panic env (get_date_of rest) base filename _ _ hdep]
    exact ⟨rfl, rfl⟩

/-- C1 witness: a run finding no commits exits with code 1. -/
theorem C1_witness :
    (run_main envNoCommits ["prog", "f.txt"]).processExitCode = 1 :=
  (C1_amended envNoCommits "prog" "f.txt" [] "/repo/f.txt" "/repo" "f.txt" true
      none ⟨by decide, by decide, rfl, rfl, rfl, rfl, rfl⟩ (by decide)).2.1 rfl rfl

/-- C2 counterexample: with --date and a dirty tree, the status output for
the queried file set is non-empty yet the printed line is the bare date, so
the stated iff fails. -/
theorem C2_counterexample :
    (run_main envDirty ["prog", "f.txt", "--date"]).stdoutOf = ["2024-05-01"] ∧
    envDirty.gitStatus ["/repo"] "/repo" = some "1 .M f.txt" ∧
    ("1 .M f.txt" : String) ≠ "" ∧
    ("2024-05-01" : String) ≠ "2024-05-01" ++ " DIRTY" :=
  ⟨rfl, rfl, by decide, by decide⟩

/-- C2 (amended): when a latest commit is found and the --date flag is NOT
passed, the DIRTY marker is appended to the printed commit identifier iff
the git status command produced non-empty output for the queried file set;
with --date the marker is suppressed (main.rs line 198 short-circuits). -/
theorem C2_amended (env : Env) (a0 a1 : String) (rest : List String)
    (filepath base filename : String) (b : Bool)
    (dependencies : Option (List String)) (h out : String)
    (hre : ReachesDeps env a1 filepath base filename b)
    (hr : rest.length ≤ 1)
    (hgd : get_date_of rest = false)
    (hdep : parse_dependencies env (base ++ "/" ++ DEPENDENCIES_PATH) filename
      = .ok dependencies)
    (hlog : env.gitLog (log_format false)
        (match dependencies with
         | some deps => filename :: deps
         | none => [base]) base = some (true, h))
    (hne : h.isEmpty = false)
    (hst : env.gitStatus
        (match dependencies with
         | some deps => filename :: deps
         | none => [base]) base = some out) :
    (out = "" → (run_main env (a0 :: a1 :: rest)).stdoutOf = [h]) ∧
    (out ≠ "" → (run_main env (a0 :: a1 :: rest)).stdoutOf = [h ++ " DIRTY"]) := by
  have key : (run_main env (a0 :: a1 :: rest)).stdoutOf
      = [if out.isEmpty then h else h ++ " DIRTY"] := by
    rw [run_main_reaches_deps env a0 a1 rest filepath base filename b hre hr, hgd]
    cases dependencies with
    | some deps =>
      rw [main_deps_phase_some env false base filename _ deps hdep,
          run_with_files_hash env (filename :: deps) base _ h out hlog hne hst]
      rfl
    | none =>
      rw [main_deps_phase_none env false base filename _ hdep,
          run_with_files_hash env [base] base _ h out hlog hne hst]
      rfl
  constructor
  · intro hout
    rw [key, hout]
    rfl
  · intro hout
    have hne2 : out.isEmpty = false := by
      cases hempty : out.isEmpty
      · rfl
      · exact absurd ((String.isEmpty_iff out).mp hempty) hout
    rw [key, hne2]
    rfl

/-- C2 witness: without --date and with dirty status output, the DIRTY
marker is appended. -/
theorem C2_witness :
    (run_main envDirty ["prog", "f.txt"]).stdoutOf = ["abc123" ++ " DIRTY"] :=
  (C2_amended envDirty "prog" "f.txt" [] "/repo/f.txt" "/repo" "f.txt" true
      none "abc123" "1 .M f.txt"
      ⟨by decide, by decide, rfl, rfl, rfl, rfl, rfl⟩ (by decide) rfl rfl rfl rfl
      rfl).2 (by decide)

/-- C3: with a dependency entry, run_main hands the git queries exactly the
list consisting of the monitored filename followed by its declared
dependency paths (run_with_files passes its file-list argument verbatim to
git log and git status), and membership in that list is exactly the stated
union. -/
theorem C3_query_set (env : Env) (a0 a1 : String) (rest : List String)
    (filepath base filename : String) (b : Bool) (deps : List String)
    (hre : ReachesDeps env a1 filepath base filename b)
    (hr : rest.length ≤ 1)
    (hdep : parse_dependencies env (base ++ "/" ++ DEPENDENCIES_PATH) filename
      = .ok (some deps)) :
    run_main env (a0 :: a1 :: rest) =
      run_with_files env (get_date_of rest) (filename :: deps) base
        ["Using base_directory: " ++ base,
         "Monitor changes for file: " ++ filepath,
         "Searching: " ++ (base ++ "/" ++ DEPENDENCIES_PATH),
         "Files monitored for changes"] ∧
    ∀ x, x ∈ filename :: deps ↔ (x = filename ∨ x ∈ deps) := by
  constructor
  · rw [run_main_reaches_deps env a0 a1 rest filepath base filename b hre hr,
        main_deps_phase_some env (get_date_of rest) base filename _ deps hdep]
    rfl
  · intro x
    exact List.mem_cons

/-- C3 witness: with f.txt declaring a.cfg and b.cfg, the query list is
f.txt, a.cfg, b.cfg. -/
theorem C3_witness :
    run_main envDeps ["prog", "f.txt"] =
      run_with_files envDeps false ["f.txt", "a.cfg", "b.cfg"] "/repo"
        ["Using base_directory: /repo", "Monitor changes for file: /repo/f.txt",
         "Searching: /repo/.deps.toml", "Files monitored for changes"] :=
  (C3_query_set envDeps "prog" "f.txt" [] "/repo/f.txt" "/repo" "f.txt" true
      ["a.cfg", "b.cfg"] ⟨by decide, by decide, rfl, rfl, rfl, rfl, rfl⟩
      (by decide) rfl).1

/-- C4: without a dependency entry (the parse yields none, in particular
when the dependency file is absent or has no entry for the filename), the
git queries are made over the containing directory of the monitored file
(its parent, since the path is not itself a directory) instead of the file
itself. -/
theorem C4_fallback (env : Env) (a0 a1 : String) (rest : List String)
    (filepath base filename : String) (b : Bool)
    (hre : ReachesDeps env a1 filepath base filename b)
    (hr : rest.length ≤ 1)
    (hnd : env.isDir filepath = false)
    (hpar : env.parent filepath = some base)
    (hdep : parse_dependencies env (base ++ "/" ++ DEPENDENCIES_PATH) filename
      = .ok none) :
    base_directory_of env filepath = .ok base ∧
    run_main env (a0 :: a1 :: rest) =
      run_with_files env (get_date_of rest) [base] base
        ["Using base_directory: " ++ base,
         "Monitor changes for file: " ++ filepath,
         "Searching: " ++ (base ++ "/" ++ DEPENDENCIES_PATH),
         "No dependencies entry found for file " ++ filename ++
           ". Monitoring basedirectory.",
         "Files monitored for changes"] := by
  constructor
  · unfold base_directory_of
    simp [hnd, hpar]
  · rw [run_main_reaches_deps env a0 a1 rest filepath base filename b hre hr,
        main_deps_phase_none env (get_date_of rest) base filename _ hdep]
    rfl

/-- C4 witness: with no dependency file, the query list is the base
directory alone. -/
theorem C4_witness :
    run_main envBase ["prog", "f.txt"] =
      run_with_files envBase false ["/repo"] "/repo"
        ["Using base_directory: /repo", "Monitor changes for file: /repo/f.txt",
         "Searching: /repo/.deps.toml",
         "No dependencies entry found for file f.txt. Monitoring basedirectory.",
         "Files monitored for changes"] :=
  (C4_fallback envBase "prog" "f.txt" [] "/repo/f.txt" "/repo" "f.txt" true
      ⟨by decide, by decide, rfl, rfl, rfl, rfl, rfl⟩ (by decide) rfl rfl rfl).2

/-- C5: with --date and a found commit, the printed line is exactly the raw
output of the committer-date (%cs short format) log query, the DIRTY marker
is never appended (for every possible git status behaviour, which the
statement leaves completely unconstrained), and the process exits 0. -/
theorem C5_date_mode (env : Env) (a0 a1 : String)
    (filepath base filename : String) (b : Bool)
    (dependencies : Option (List String)) (d : String)
    (hre : ReachesDeps env a1 filepath base filename b)
    (hdep : parse_dependencies env (base ++ "/" ++ DEPENDENCIES_PATH) filename
      = .ok dependencies)
    (hlog : env.gitLog (log_format true)
        (match dependencies with
         | some deps => filename :: deps
         | none => [base]) base = some (true, d))
    (hne : d.isEmpty = false) :
    (run_main env [a0, a1, "--date"]).stdoutOf = [d] ∧
    (run_main env [a0, a1, "--date"]).processExitCode = 0 := by
  have hgd : get_date_of ["--date"] = true := rfl
  have key : run_main env [a0, a1, "--date"]
      = main_deps_phase env true base filename
          ["Using base_directory: " ++ base,
           "Monitor changes for file: " ++ filepath] := by
    rw [run_main_reaches_deps env a0 a1 ["--date"] filepath base filename b hre
        (by decide), hgd]
  rw [key]
  cases dependencies with
  | some deps =>
    rw [main_deps_phase_some env true base filename _ deps hdep,
        run_with_files_date env (filename :: deps) base _ d hlog hne]
    exact ⟨rfl, rfl⟩
  | none =>
    rw [main_deps_phase_none env true base filename _ hdep,
        run_with_files_date env [base] base _ d hlog hne]
    exact ⟨rfl, rfl⟩

/-- C5 witness: date mode on a dirty tree prints the bare date and exits
0. -/
theorem C5_witness :
    (run_main envDirty ["prog", "f.txt", "--date"]).stdoutOf = ["2024-05-01"] ∧
    (run_main envDirty ["prog", "f.txt", "--date"]).processExitCode = 0 :=
  C5_date_mode envDirty "prog" "f.txt" "/repo/f.txt" "/repo" "f.txt" true
    none "2024-05-01" ⟨by decide, by decide, rfl, rfl, rfl, rfl, rfl⟩ rfl rfl rfl

/-- C6 counterexample: a third argument that is not the string --date does
NOT abort the run: the program proceeds exactly as without it and
terminates successfully with output. -/
theorem C6_counterexample :
    run_main envBase ["prog", "f.txt", "--bogus"] =
      run_main envBase ["prog", "f.txt"] ∧
    (run_main envBase ["prog", "f.txt", "--bogus"]).processExitCode = 0 ∧
    (run_main envBase ["prog", "f.txt", "--bogus"]).stdoutOf = ["abc123"] :=
  ⟨rfl, rfl, rfl⟩

/-- C6 (amended): a wrong number of arguments (fewer than 2 or more than 3)
aborts immediately with the usage diagnostic on standard error and exit
code 1; a third argument that is not --date is not rejected but silently
treated as if no --date flag were present. -/
theorem C6_amended (env : Env) (a0 a1 x : String) (hx : x ≠ "--date") :
    run_main env [a0] = .exit 1 [] ["Usage: " ++ a0 ++ " <filename> [--date]"] ∧
    (∀ a2 a3 more, run_main env (a0 :: a1 :: a2 :: a3 :: more) =
      .exit 1 [] ["Usage: " ++ a0 ++ " <filename> [--date]"]) ∧
    run_main env [a0, a1, x] = run_main env [a0, a1] := by
  refine ⟨rfl, ?_, ?_⟩
  · intro a2 a3 more
    have hlen : (a2 :: a3 :: more).length > 1 := by
      simp [List.length_cons]
    show (if (a2 :: a3 :: more).length > 1 then
        Outcome.exit 1 [] ["Usage: " ++ a0 ++ " <filename> [--date]"]
      else run_main_checked env a1 (a2 :: a3 :: more)) =
        Outcome.exit 1 [] ["Usage: " ++ a0 ++ " <filename> [--date]"]
    rw [if_pos hlen]
  · have h1 : ¬ (([x] : List String).length > 1) := by simp
    have h2 : ¬ (([] : List String).length > 1) := by simp
    show (if ([x] : List String).length > 1 then
        Outcome.exit 1 [] ["Usage: " ++ a0 ++ " <filename> [--date]"]
      else run_main_checked env a1 [x]) =
      (if (([] : List String)).length > 1 then
        Outcome.exit 1 [] ["Usage: " ++ a0 ++ " <filename> [--date]"]
      else run_main_checked env a1 [])
    rw [if_neg h1, if_neg h2]
    refine run_main_checked_congr env a1 [x] [] ?_
    simp [get_date_of, hx]

/-- C6 witness: --bogus as third argument behaves as if absent. -/
theorem C6_witness :
    run_main envBase ["prog", "f.txt", "--bogus"] =
      run_main envBase ["prog", "f.txt"] :=
  (C6_amended envBase "prog" "f.txt" "--bogus" (by decide)).2.2

/-- C7: absence of a git repository, an unreadable dependency file, and a
malformed dependency file each abort the run with a panic: nothing is on
standard output, the panic diagnostic is on standard error, and the process
exit code 101 is non-zero. -/
theorem C7_aborts (env : Env) (a0 a1 : String) (rest : List String)
    (filepath base : String) (b : Bool)
    (hr : rest.length ≤ 1)
    (h1 : a1 ≠ "-v") (h2 : a1 ≠ "--version")
    (hc : env.canonicalize a1 = some filepath)
    (he : env.tryExists filepath = some b)
    (hb : base_directory_of env filepath = .ok base) :
    (env.gitRevParse base = some false →
      run_main env (a0 :: a1 :: rest) =
        .panicked ("Checking git repository failed: " ++
            "Not a git repository (or any of the parent directories): .git")
          [] ["Using base_directory: " ++ base]) ∧
    (∀ filename, env.gitRevParse base = some true →
      env.fileName filepath = some filename →
      env.pathExists (base ++ "/" ++ DEPENDENCIES_PATH) = true →
      env.readToString (base ++ "/" ++ DEPENDENCIES_PATH) = none →
      run_main env (a0 :: a1 :: rest) =
        .panicked "Failed to read .deps.toml" []
          ["Using base_directory: " ++ base,
           "Monitor changes for file: " ++ filepath]) ∧
    (∀ filename s, env.gitRevParse base = some true →
      env.fileName filepath = some filename →
      env.pathExists (base ++ "/" ++ DEPENDENCIES_PATH) = true →
      env.readToString (base ++ "/" ++ DEPENDENCIES_PATH) = some s →
      env.parseToml s = none →
      run_main env (a0 :: a1 :: rest) =
        .panicked "Failed to parse .deps.toml" []
          ["Using base_directory: " ++ base,
           "Monitor changes for file: " ++ filepath]) ∧
    (∀ msg out err, (Outcome.panicked msg out err).processExitCode = 101 ∧
      (Outcome.panicked msg out err).stdoutOf = out ∧
      (Outcome.panicked msg out err).stderrOf = err ++ [msg]) := by
  have hrr : ¬ (rest.length > 1) := by omega
  refine ⟨?_, ?_, ?_, fun msg out err => ⟨rfl, rfl, rfl⟩⟩
  · intro hg
    unfold run_main run_main_checked run_main_with_path run_main_with_base
    unfold check_git_repository
    simp [hrr, h1, h2, hc, he, hb, hg]
  · intro filename hg hf hex hread
    have hdep : parse_dependencies env (base ++ "/" ++ DEPENDENCIES_PATH) filename
        = .error "Failed to read .deps.toml" := by
      unfold parse_dependencies
      simp [hex, hread]
    rw [run_main_reaches_deps env a0 a1 rest filepath base filename b
          ⟨h1, h2, hc, he, hb, hg, hf⟩ hr,
        main_deps_phase_panic env (get_date_of rest) base filename _ _ hdep]
  · intro filename s hg hf hex hread hparse
    have hdep : parse_dependencies env (base ++ "/" ++ DEPENDENCIES_PATH) filename
        = .error "Failed to parse .deps.toml" := by
      unfold parse_dependencies
      simp [hex, hread, hparse]
    rw [run_main_reaches_deps env a0 a1 rest filepath base filename b
          ⟨h1, h2, hc, he, hb, hg, hf⟩ hr,
        main_deps_phase_panic env (get_date_of rest) base filename _ _ hdep]

/-- C7 witness: outside a git repository the run panics with the
repository diagnostic, printing nothing to standard output. -/
theorem C7_witness :
    run_main envNoRepo ["prog", "f.txt"] =
      .panicked ("Checking git repository failed: " ++
          "Not a git repository (or any of the parent directories): .git")
        [] ["Using base_directory: /repo"] :=
  (C7_aborts envNoRepo "prog" "f.txt" [] "/repo/f.txt" "/repo" true (by decide)
      (by decide) (by decide) rfl rfl rfl).1 rfl

/-- Classification helper: run_with_files never exits 0 with anything but a
single stdout line. -/
theorem run_with_files_exit_zero (env : Env) (gd : Bool) (files : List String)
    (cwd : String) (serr s e : List String)
    (hrun : run_with_files env gd files cwd serr = .exit 0 s e) :
    ∃ line, s = [line] := by
  unfold run_with_files at hrun
  split at hrun
  · simp at hrun
  · simp at hrun
  · split at hrun
    · exact ⟨_, ((Outcome.exit.injEq _ _ _ _ _ _).mp hrun).2.1.symm⟩
    · split at hrun
      · simp at hrun
      · exact ⟨_, ((Outcome.exit.injEq _ _ _ _ _ _).mp hrun).2.1.symm⟩

/-- Classification helper: the dependency phase never exits 0 with anything
but a single stdout line. -/
theorem main_deps_phase_exit_zero (env : Env) (gd : Bool)
    (base filename : String) (serr s e : List String)
    (hrun : main_deps_phase env gd base filename serr = .exit 0 s e) :
    ∃ line, s = [line] := by
  simp only [main_deps_phase] at hrun
  split at hrun
  · simp at hrun
  · split at hrun
    · exact run_with_files_exit_zero _ _ _ _ _ _ _ hrun
    · exact run_with_files_exit_zero _ _ _ _ _ _ _ hrun

/-- Classification helper: run_main_with_base never exits 0 with anything
but a single stdout line. -/
theorem run_main_with_base_exit_zero (env : Env) (rest : List String)
    (filepath base : String) (s e : List String)
    (hrun : run_main_with_base env rest filepath base = .exit 0 s e) :
    ∃ line, s = [line] := by
  simp only [run_main_with_base] at hrun
  split at hrun
  · simp at hrun
  · simp at hrun
  · split at hrun
    · simp at hrun
    · exact main_deps_phase_exit_zero _ _ _ _ _ _ _ hrun

/-- Classification helper: run_main_checked exits 0 only in the version
branch (empty stdout) or with a single stdout line. -/
theorem run_main_checked_exit_zero (env : Env) (a1 : String)
    (rest : List String) (s e : List String)
    (hrun : run_main_checked env a1 rest = .exit 0 s e) :
    (s = [] ∧ (a1 = "-v" ∨ a1 = "--version")) ∨ ∃ line, s = [line] := by
  unfold run_main_checked at hrun
  split at hrun
  case isTrue hcond =>
    left
    refine ⟨(((Outcome.exit.injEq _ _ _ _ _ _).mp hrun).2.1).symm, ?_⟩
    simpa using hcond
  case isFalse hcond =>
    right
    split at hrun
    · simp at hrun
    · split at hrun
      · simp at hrun
      · simp only [run_main_with_path] at hrun
        split at hrun
        · simp at hrun
        · exact run_main_with_base_exit_zero _ _ _ _ _ _ hrun

/-- C8 counterexample: the version query is a successful invocation (exit
code 0) that writes no line at all to standard output; its report goes to
standard error. -/
theorem C8_counterexample :
    run_main envBase ["prog", "-v"] = .exit 0 [] ["Version: 1.0.0"] ∧
    (run_main envBase ["prog", "-v"]).processExitCode = 0 ∧
    (run_main envBase ["prog", "-v"]).stdoutOf.length = 0 :=
  ⟨rfl, rfl, rfl⟩

/-- C8 (amended): every invocation that terminates with exit code 0 writes
exactly one line to standard output (a commit identifier, optionally with
the DIRTY suffix, or a commit date) -- except a version query (-v or
--version as the second argument), which writes zero lines and reports on
standard error; diagnostics never appear on standard output, which in the
embedding receives only the single println of main.rs line 201. -/
theorem C8_amended (env : Env) (args : List String) (s e : List String)
    (hrun : run_main env args = .exit 0 s e) :
    (∃ line, s = [line]) ∨
    (s = [] ∧ (args.get? 1 = some "-v" ∨ args.get? 1 = some "--version")) := by
  match args with
  | [] => exact absurd hrun (by simp [run_main])
  | [a0] => exact absurd hrun (by simp [run_main])
  | a0 :: a1 :: rest =>
    have hrun2 : (if rest.length > 1 then
        Outcome.exit 1 [] ["Usage: " ++ a0 ++ " <filename> [--date]"]
      else run_main_checked env a1 rest) = .exit 0 s e := hrun
    split at hrun2
    · simp at hrun2
    · rcases run_main_checked_exit_zero env a1 rest s e hrun2 with h | ⟨line, hline⟩
      · right
        exact ⟨h.1, by simpa using h.2⟩
      · left
        exact ⟨line, hline⟩

/-- C8 witness: an ordinary successful run writes exactly one stdout
line. -/
theorem C8_witness :
    (∃ line, (["abc123"] : List String) = [line]) ∨
    ((["abc123"] : List String) = [] ∧
      ((["prog", "f.txt"] : List String).get? 1 = some "-v" ∨
       (["prog", "f.txt"] : List String).get? 1 = some "--version")) :=
  C8_amended envBase ["prog", "f.txt"] ["abc123"]
    ["Using base_directory: /repo", "Monitor changes for file: /repo/f.txt",
     "Searching: /repo/.deps.toml",
     "No dependencies entry found for file f.txt. Monitoring basedirectory.",
     "Files monitored for changes", "Latest commit affecting files: abc123"]
    rfl

/-- C9: when the git log command fails, and when it succeeds with empty
output, get_latest_commit returns none, and the final phase of main treats
the two cases identically: it reports No commits found on standard error
and exits with code 1. -/
theorem C9_no_commits (env : Env) (files : List String) (gd : Bool)
    (cwd : String) (serr : List String) :
    ((∃ out, env.gitLog (log_format gd) files cwd = some (false, out)) →
      get_latest_commit env files gd cwd = .ok none ∧
      run_with_files env gd files cwd serr =
        .exit 1 [] (serr ++ ["No commits found."])) ∧
    (env.gitLog (log_format gd) files cwd = some (true, "") →
      get_latest_commit env files gd cwd = .ok none ∧
      run_with_files env gd files cwd serr =
        .exit 1 [] (serr ++ ["No commits found."])) := by
  constructor
  · rintro ⟨out, hlog⟩
    have h := get_latest_commit_none_of_fail env files gd cwd out hlog
    exact ⟨h, run_with_files_none env gd files cwd serr h⟩
  · intro hlog
    have h := get_latest_commit_none_of_empty env files gd cwd hlog
    exact ⟨h, run_with_files_none env gd files cwd serr h⟩

/-- C9 witness: a failing git log command yields none and the exit-1
report. -/
theorem C9_witness :
    get_latest_commit envLogFails ["/repo"] false "/repo" = .ok none ∧
    run_with_files envLogFails false ["/repo"] "/repo" [] =
      .exit 1 [] ["No commits found."] :=
  (C9_no_commits envLogFails ["/repo"] false "/repo" []).1 ⟨"fatal", rfl⟩

/-- C10: when the monitored argument canonicalizes to a directory, the
program accepts it and uses that directory itself -- not its parent -- as
the base directory: the run reduces to run_main_with_base whose final
argument (the directory used for the dependency-file lookup and as the
working directory of every git invocation) is the canonical path itself. -/
theorem C10_directory_arg (env : Env) (a0 a1 : String) (rest : List String)
    (filepath : String) (b : Bool)
    (hr : rest.length ≤ 1)
    (h1 : a1 ≠ "-v") (h2 : a1 ≠ "--version")
    (hc : env.canonicalize a1 = some filepath)
    (he : env.tryExists filepath = some b)
    (hd : env.isDir filepath = true) :
    base_directory_of env filepath = .ok filepath ∧
    run_main env (a0 :: a1 :: rest) =
      run_main_with_base env rest filepath filepath := by
  have hbase : base_directory_of env filepath = .ok filepath := by
    unfold base_directory_of
    simp [hd]
  refine ⟨hbase, ?_⟩
  have hrr : ¬ (rest.length > 1) := by omega
  unfold run_main run_main_checked run_main_with_path
  simp [hrr, h1, h2, hc, he, hbase]

/-- C10 witness: an argument canonicalizing to the directory /repo makes
/repo itself the base directory. -/
theorem C10_witness :
    run_main envDirArg ["prog", "somedir"] =
      run_main_with_base envDirArg [] "/repo" "/repo" :=
  (C10_directory_arg envDirArg "prog" "somedir" [] "/repo" true (by decide)
      (by decide) (by decide) rfl rfl rfl).2

end ChangeMonitor
